import Mathlib

/-!
Shallow embedding of ia2xl.py: conversion of a parsed behavioral-coding
interview plus a coding-scheme configuration into a spreadsheet workbook
with cross-sheet list validation and selective cell locking.

Modelling conventions:
* Parsing of the configuration and interview files is an external
  collaborator; the embedding takes the already-parsed objects.
* Cosmetic styling (borders, alignment, column widths, page setup) is not
  modelled; no claim depends on it.
* A cell holds an optional value (none models a blank / Python None).
* Python int(s) is modelled by pyInt, a structural decimal parser
  (optional minus sign followed by digits); a failed parse raises
  ValueError. Python float(s) is represented by the tag floatVal carrying
  the source text; no claim exercises float parse failure.
* Exceptions are modelled by Except PyError; an uncaught exception aborts
  the whole conversion, so partially mutated intermediate state is
  unobservable and sheets are constructed before being appended.
* openpyxl cell addresses, which the source always builds by f-strings of
  shape letter-then-number, are represented structurally as CellRef.
* The validation formula string, built by the source as
  quote_sheetname(title) followed by !$A$2:$A$ and the reference sheet
  max_row, is represented structurally by the fields refSheet, refCol,
  refFirstRow, refLastRow of DataValidation.
-/

namespace Ia2xl

/-- A value materialized into a spreadsheet cell. -/
inductive XLValue
  | intVal (n : Int)
  | floatVal (s : String)
  | strVal (s : String)
  deriving DecidableEq, Repr

/-- A cell: none models a blank cell (Python None). -/
abbrev Cell := Option XLValue

/-- One sheet row. -/
abbrev Row := List Cell

/-- One legal value of a property (value, description, value id, owning property id). -/
structure PropertyValue where
  value : String
  description : String
  property_value_id : String
  property_id : String
  deriving DecidableEq, Repr

/-- The class of a property: models the Python classes _CodingProperty and
_GlobalProperty, which the orchestrator distinguishes by isinstance. -/
inductive PropertyKind
  | coding
  | global
  deriving DecidableEq, Repr

/-- A coding or global property of the IA configuration. -/
structure Property where
  kind : PropertyKind
  display_name : String
  property_id : String
  data_type : String
  decimal_digits : Nat
  values : List PropertyValue
  deriving DecidableEq, Repr

/-- One utterance of the parsed interview. -/
structure Utterance where
  line_number : Int
  utterance_number : Int
  speaker_role : String
  utterance_text : String
  deriving DecidableEq, Repr

/-- The parsed interview: an ordered sequence of utterances. -/
structure Interview where
  utterances : List Utterance
  deriving DecidableEq, Repr

/-- The parsed IA configuration. -/
structure IaConfiguration where
  coding_properties : List Property
  global_properties : List Property
  deriving DecidableEq, Repr

/-- A cell address, written in the source as an f-string letter-then-number. -/
structure CellRef where
  col : Char
  row : Nat
  deriving DecidableEq, Repr

/-- The target range of a validation rule: a single cell address (global
mode, f-string B then row) or a column range (column mode, f-string
col 2 colon col max_row). -/
inductive TargetRange
  | cell (col : Char) (row : Nat)
  | colRange (col : Char) (firstRow lastRow : Nat)
  deriving DecidableEq, Repr

/-- A data-validation rule: type, source range (sheet, column, rows) and
target range, with allow_blank as in openpyxl DataValidation. -/
structure DataValidation where
  vtype : String
  refSheet : String
  refCol : Char
  refFirstRow : Nat
  refLastRow : Nat
  allow_blank : Bool
  target : TargetRange
  deriving DecidableEq, Repr

/-- A worksheet: title, grid rows, protection state, visibility, the cells
whose protection was overridden to locked=False, and validation rules. -/
structure Sheet where
  title : String
  rows : List Row
  protectionEnabled : Bool
  protectionPassword : Option String
  hidden : Bool
  unlocked : List CellRef
  validations : List DataValidation
  deriving DecidableEq, Repr

/-- A workbook: its sheets in order. -/
structure Workbook where
  sheets : List Sheet
  deriving DecidableEq, Repr

/-- Python exceptions that the source can raise. -/
inductive PyError
  | valueError (s : String)
  | attributeError (s : String)
  deriving DecidableEq, Repr

instance {ε α : Type} [DecidableEq ε] [DecidableEq α] : DecidableEq (Except ε α) := fun x y =>
  match x, y with
  | Except.error a, Except.error b =>
    match decEq a b with
    | isTrue h => isTrue (by rw [h])
    | isFalse h => isFalse (fun hx => h (Except.error.inj hx))
  | Except.ok a, Except.ok b =>
    match decEq a b with
    | isTrue h => isTrue (by rw [h])
    | isFalse h => isFalse (fun hx => h (Except.ok.inj hx))
  | Except.error _, Except.ok _ => isFalse (fun hx => Except.noConfusion hx)
  | Except.ok _, Except.error _ => isFalse (fun hx => Except.noConfusion hx)

/-- The single default sheet of a fresh openpyxl Workbook. -/
def emptySheet : Sheet :=
  { title := "Sheet", rows := [], protectionEnabled := false, protectionPassword := none,
    hidden := false, unlocked := [], validations := [] }

/-- workbook.sheetnames -/
def Workbook.sheetnames (wb : Workbook) : List String := wb.sheets.map (fun s => s.title)

/-- openpyxl max_row: the last populated row number, at least 1 even for an
empty sheet. -/
def Sheet.max_row (s : Sheet) : Nat := max s.rows.length 1

/-- Replace the sheet at a position (models mutation of an aliased sheet
object held inside the workbook). -/
def updateSheetAt : List Sheet → Nat → Sheet → List Sheet
  | [], _, _ => []
  | _ :: l, 0, s => s :: l
  | a :: l, n + 1, s => a :: updateSheetAt l n s

/-- Insert a sheet at a position (models create_sheet with an index). -/
def insertSheetAt : List Sheet → Nat → Sheet → List Sheet
  | l, 0, s => s :: l
  | [], _ + 1, s => [s]
  | a :: l, n + 1, s => a :: insertSheetAt l n s

/-- The computed reference sheet name, f-string display_name _ property_id. -/
def sheetNameOf (property : Property) : String :=
  property.display_name ++ "_" ++ property.property_id

/-- The digit run of a decimal literal, folded structurally into a number
with an accumulator; a non-digit character fails the parse. -/
def parseDigits : List Char → Nat → Option Nat
  | [], acc => some acc
  | c :: rest, acc =>
    if '0' ≤ c ∧ c ≤ '9' then parseDigits rest (acc * 10 + (c.toNat - 48)) else none

/-- Python int over a decimal string: an optional leading minus sign
followed by one or more digits (structural stand-in for int(s), which
raises ValueError on anything else). -/
def pyInt (s : String) : Option Int :=
  match s.data with
  | [] => none
  | '-' :: rest => if rest = [] then none else (parseDigits rest 0).map (fun n => -(n : Int))
  | l => (parseDigits l 0).map (fun n => (n : Int))

/-- The data_type selection of _append_validation_sheet_: int if the
property is numeric with zero decimal digits, float if numeric otherwise,
str otherwise; applying the selected constructor to a value string. -/
def selectDataType (property : Property) : String → Except PyError XLValue :=
  if property.data_type = "numeric" ∧ property.decimal_digits = 0 then
    fun v =>
      match pyInt v with
      | some n => Except.ok (XLValue.intVal n)
      | none => Except.error (PyError.valueError v)
  else if property.data_type = "numeric" then
    fun v => Except.ok (XLValue.floatVal v)
  else
    fun v => Except.ok (XLValue.strVal v)

/-- The header row appended first to every reference sheet. -/
def headerRow : Row :=
  [some (XLValue.strVal "property_value"), some (XLValue.strVal "property_description"),
   some (XLValue.strVal "property_value_id"), some (XLValue.strVal "property_id")]

/-- The loop of _append_validation_sheet_ appending one row per
PropertyValue, coercing each value with the selected data_type; the first
coercion failure raises. -/
def appendValueRows (dt : String → Except PyError XLValue) :
    List PropertyValue → Except PyError (List Row)
  | [] => Except.ok []
  | pv :: rest =>
    match dt pv.value with
    | Except.error e => Except.error e
    | Except.ok v =>
      match appendValueRows dt rest with
      | Except.error e => Except.error e
      | Except.ok rows =>
        Except.ok ([some v, some (XLValue.strVal pv.description),
                    some (XLValue.strVal pv.property_value_id),
                    some (XLValue.strVal pv.property_id)] :: rows)

/-- _append_validation_sheet_(workbook, property, sheetpassword=None):
if the computed name is fresh, append a new hidden, password-protected
sheet holding the header row plus one coerced row per value and return it;
otherwise log the collision and return None (the workbook unchanged). -/
def _append_validation_sheet_ (workbook : Workbook) (property : Property)
    (sheetpassword : Option String) : Except PyError (Option Sheet × Workbook) :=
  let sheet_name := sheetNameOf property
  let pwd := sheetpassword.getD sheet_name
  if sheet_name ∉ workbook.sheetnames then
    match appendValueRows (selectDataType property) property.values with
    | Except.error e => Except.error e
    | Except.ok valueRows =>
      let new_sheet : Sheet :=
        { title := sheet_name, rows := headerRow :: valueRows,
          protectionEnabled := true, protectionPassword := some pwd,
          hidden := true, unlocked := [], validations := [] }
      Except.ok (some new_sheet, { workbook with sheets := workbook.sheets ++ [new_sheet] })
  else
    -- the source prints a collision message and falls off the end, returning None
    Except.ok (none, workbook)

/-- The location argument of _set_validation_: the source passes a string
idx together with is_global; callers keep them consistent (idx is
str(global_row) exactly when is_global), so the pair is represented by a
tagged location, the tag playing the role of is_global. -/
inductive Loc
  | rowIdx (r : Nat)
  | colIdx (c : Char)
  deriving DecidableEq, Repr

/-- _set_validation_(data_sheet, idx, vsheet, is_global): install a list
rule drawing values from column A rows 2 through max_row of vsheet with
blanks allowed, targeting cell B idx (global mode) or the column range
idx 2 through idx max_row of the data sheet (column mode). Reading
vsheet.title on None raises AttributeError. -/
def _set_validation_ (data_sheet : Sheet) (idx : Loc) (vsheet : Option Sheet) :
    Except PyError Sheet :=
  match vsheet with
  | none => Except.error (PyError.attributeError "NoneType object has no attribute title")
  | some vs =>
    let dv : DataValidation :=
      { vtype := "list", refSheet := vs.title, refCol := 'A',
        refFirstRow := 2, refLastRow := vs.max_row, allow_blank := true,
        target :=
          match idx with
          | Loc.rowIdx r => TargetRange.cell 'B' r
          | Loc.colIdx c => TargetRange.colRange c 2 data_sheet.max_row }
    Except.ok { data_sheet with validations := data_sheet.validations ++ [dv] }

/-- _build_global_sheet_(wb, ia_config): create the Global Ratings sheet at
index 1 with header (Global, Rating) and one row per global property,
protect it, and set Protection(locked=False) on cell B i for every
i from 1 to the number of rows. -/
def _build_global_sheet_ (wb : Workbook) (ia_config : IaConfiguration) :
    Workbook × Sheet :=
  let rows : List Row :=
    [some (XLValue.strVal "Global"), some (XLValue.strVal "Rating")] ::
      ia_config.global_properties.map (fun gp => [some (XLValue.strVal gp.display_name)])
  let sheet : Sheet :=
    { title := "Global Ratings", rows := rows,
      protectionEnabled := true, protectionPassword := some "Globals", hidden := false,
      unlocked := (List.range rows.length).map (fun k => CellRef.mk 'B' (k + 1)),
      validations := [] }
  ({ wb with sheets := insertSheetAt wb.sheets 1 sheet }, sheet)

/-- _build_interview_sheet_(wb, ia_config, interview): retitle the active
sheet to Interview, append the header row and one row per utterance in
order with blank coding-property cells, protect the sheet, and set
Protection(locked=False) on cell chr(col) i for every utterance index
i counted from 1 and every col counted from 68 over the coding
properties. -/
def _build_interview_sheet_ (wb : Workbook) (ia_config : IaConfiguration)
    (interview : Interview) : Workbook × Sheet :=
  let sheet0 := wb.sheets.headD emptySheet
  let column_headers : Row :=
    [some (XLValue.strVal "Line"), some (XLValue.strVal "Utt"), some (XLValue.strVal "Role")] ++
      ia_config.coding_properties.map (fun cp => some (XLValue.strVal cp.display_name)) ++
      [some (XLValue.strVal "Text")]
  let dataRows : List Row :=
    interview.utterances.map (fun utt =>
      [some (XLValue.intVal utt.line_number), some (XLValue.intVal utt.utterance_number),
       some (XLValue.strVal utt.speaker_role)] ++
        ia_config.coding_properties.map (fun _ => (none : Cell)) ++
        [some (XLValue.strVal utt.utterance_text)])
  let newUnlocked : List CellRef :=
    (List.range interview.utterances.length).flatMap (fun i =>
      (List.range ia_config.coding_properties.length).map (fun k =>
        CellRef.mk (Char.ofNat (68 + k)) (i + 1)))
  let sheet : Sheet :=
    { sheet0 with title := "Interview", rows := sheet0.rows ++ column_headers :: dataRows,
                  protectionEnabled := true, protectionPassword := some "Interview",
                  unlocked := sheet0.unlocked ++ newUnlocked }
  ({ wb with sheets := updateSheetAt wb.sheets 0 sheet }, sheet)

/-- The isinstance(cp, _GlobalProperty) test of the orchestrator, read off
the property class tag. -/
def isGlobalProperty (p : Property) : Bool :=
  match p.kind with
  | PropertyKind.global => true
  | PropertyKind.coding => false

/-- The property loop of ia2xl: for each property, build its reference
sheet, bump the matching location counter (global_row for globals,
property_column for coding properties), and wire validation into the
global sheet (index 1) or the interview sheet (index 0). The counters are
threaded explicitly; the data sheets are addressed by their fixed
positions, which _append_validation_sheet_ (appending only at the end)
never disturbs. -/
def ia2xlLoop : List Property → Workbook → Nat → Nat → Except PyError Workbook
  | [], wb, _, _ => Except.ok wb
  | cp :: rest, wb, property_column, global_row =>
    match _append_validation_sheet_ wb cp none with
    | Except.error e => Except.error e
    | Except.ok (sheet, wb1) =>
      if isGlobalProperty cp then
        match _set_validation_ (wb1.sheets.getD 1 emptySheet) (Loc.rowIdx (global_row + 1)) sheet with
        | Except.error e => Except.error e
        | Except.ok ds =>
          ia2xlLoop rest { wb1 with sheets := updateSheetAt wb1.sheets 1 ds }
            property_column (global_row + 1)
      else
        match _set_validation_ (wb1.sheets.getD 0 emptySheet)
            (Loc.colIdx (Char.ofNat (property_column + 1))) sheet with
        | Except.error e => Except.error e
        | Except.ok ds =>
          ia2xlLoop rest { wb1 with sheets := updateSheetAt wb1.sheets 0 ds }
            (property_column + 1) global_row

/-- ia2xl(config_path, interview_files) with the parsing collaborators
factored out: build the interview sheet on the fresh default sheet, the
global sheet at index 1, then run the property loop over coding then
global properties with counters starting at 67 and 1. -/
def ia2xl (iacfg : IaConfiguration) (interview : Interview) : Except PyError Workbook :=
  let property_column := 67
  let global_row := 1
  let wb : Workbook := { sheets := [emptySheet] }
  let wb := (_build_interview_sheet_ wb iacfg interview).1
  let wb := (_build_global_sheet_ wb iacfg).1
  ia2xlLoop (iacfg.coding_properties ++ iacfg.global_properties) wb property_column global_row

/-- The columns of the column-mode validation targets of a sheet, in
installation order. -/
def colTargets (s : Sheet) : List Char :=
  s.validations.filterMap (fun dv =>
    match dv.target with
    | TargetRange.colRange c _ _ => some c
    | TargetRange.cell _ _ => none)

/-- The rows of the single-cell validation targets of a sheet, in
installation order. -/
def cellRowTargets (s : Sheet) : List Nat :=
  s.validations.filterMap (fun dv =>
    match dv.target with
    | TargetRange.cell _ r => some r
    | TargetRange.colRange _ _ _ => none)

/-! Specification companions for the reference-sheet builder: a total
description of the built sheet, used to state what the code produces when
every declared-numeric value parses. -/

/-- The declared-type coercion of one value string: integer when the
property is numeric with zero decimal digits, float when numeric
otherwise, text otherwise. -/
def coercedValue (p : Property) (v : String) : XLValue :=
  if p.data_type = "numeric" ∧ p.decimal_digits = 0 then XLValue.intVal ((pyInt v).getD 0)
  else if p.data_type = "numeric" then XLValue.floatVal v
  else XLValue.strVal v

/-- The reference-sheet row written for one PropertyValue. -/
def refRowOf (p : Property) (pv : PropertyValue) : Row :=
  [some (coercedValue p pv.value), some (XLValue.strVal pv.description),
   some (XLValue.strVal pv.property_value_id), some (XLValue.strVal pv.property_id)]

/-- The reference sheet built for a property with a fresh name and no
explicit password. -/
def refSheetOf (p : Property) : Sheet :=
  { title := sheetNameOf p, rows := headerRow :: p.values.map (refRowOf p),
    protectionEnabled := true, protectionPassword := some (sheetNameOf p),
    hidden := true, unlocked := [], validations := [] }

/-! Concrete fixtures (the small scenario of the specification: one numeric
coding property Intensity with values 1, 2, 3 and one global property
Engagement with values Low and High). -/

/-- The fresh workbook produced by openpyxl.Workbook(). -/
def freshWorkbook : Workbook := { sheets := [emptySheet] }

def exValue (v : String) : PropertyValue :=
  { value := v, description := "desc", property_value_id := "vid", property_id := "P1" }

def exIntensity : Property :=
  { kind := PropertyKind.coding, display_name := "Intensity", property_id := "P1",
    data_type := "numeric", decimal_digits := 0,
    values := [exValue "1", exValue "2", exValue "3"] }

def exEngagement : Property :=
  { kind := PropertyKind.global, display_name := "Engagement", property_id := "G1",
    data_type := "text", decimal_digits := 0, values := [exValue "Low", exValue "High"] }

def exEmptyProp : Property :=
  { kind := PropertyKind.coding, display_name := "Empty", property_id := "E1",
    data_type := "text", decimal_digits := 0, values := [] }

def exUtt : Utterance :=
  { line_number := 1, utterance_number := 1, speaker_role := "T", utterance_text := "hello" }

def exCfg : IaConfiguration :=
  { coding_properties := [exIntensity], global_properties := [exEngagement] }

def exCfgOneCoding : IaConfiguration :=
  { coding_properties := [exIntensity], global_properties := [] }

/-- Two properties with the same display name and property id, hence the
same computed reference-sheet name. -/
def exCfgDup : IaConfiguration :=
  { coding_properties := [exIntensity, exIntensity], global_properties := [] }

/-- Twenty-four coding properties with distinct ids: one more than the
twenty-three single-letter columns D through Z available after the three
fixed columns. -/
def exCfg24 : IaConfiguration :=
  { coding_properties := (List.range 24).map (fun k =>
      { kind := PropertyKind.coding, display_name := "P",
        property_id := String.singleton (Char.ofNat (65 + k)),
        data_type := "text", decimal_digits := 0, values := [] }),
    global_properties := [] }

def exInterview0 : Interview := { utterances := [] }

def exInterview1 : Interview := { utterances := [exUtt] }

def exInterview2 : Interview := { utterances := [exUtt, exUtt] }

/-- Claim C5: every rule installed by the validation-wiring step is a list
rule allowing blanks, drawing its values from column A of the reference
sheet from row 2 through its last populated row; in global mode (a row
index) it targets the single cell in fixed column B of that row, and in
column mode (a column identifier) it targets that column from row 2
through the last populated row of the data sheet. -/
theorem C5_validation_rule_shape (ds : Sheet) (idx : Loc) (vs : Sheet) :
    _set_validation_ ds idx (some vs) =
      Except.ok { ds with validations := ds.validations ++
        [{ vtype := "list", refSheet := vs.title, refCol := 'A', refFirstRow := 2,
           refLastRow := vs.max_row, allow_blank := true,
           target := match idx with
             | Loc.rowIdx r => TargetRange.cell 'B' r
             | Loc.colIdx c => TargetRange.colRange c 2 ds.max_row }] } := by
  cases idx <;> rfl

/-- Replacing the blank-cell comprehension by an explicit replicate. -/
theorem map_none_eq_replicate (l : List Property) :
    l.map (fun _ => (none : Cell)) = List.replicate l.length none := by
  induction l with
  | nil => rfl
  | cons a t ih => simp [List.replicate, ih]

/-- Claim C7: the interview sheet is the header row Line, Utt, Role, one
column per coding property in configuration order, Text, followed by one
row per utterance in input order, each carrying line number, utterance
number, speaker role and text, with every coding-property column blank. -/
theorem C7_interview_sheet_layout (cfg : IaConfiguration) (itv : Interview) :
    ((_build_interview_sheet_ freshWorkbook cfg itv).2).rows =
      ([some (XLValue.strVal "Line"), some (XLValue.strVal "Utt"), some (XLValue.strVal "Role")] ++
        cfg.coding_properties.map (fun cp => some (XLValue.strVal cp.display_name)) ++
        [some (XLValue.strVal "Text")]) ::
      itv.utterances.map (fun utt =>
        [some (XLValue.intVal utt.line_number), some (XLValue.intVal utt.utterance_number),
         some (XLValue.strVal utt.speaker_role)] ++
          List.replicate cfg.coding_properties.length (none : Cell) ++
          [some (XLValue.strVal utt.utterance_text)]) := by
  simp [_build_interview_sheet_, freshWorkbook, emptySheet, map_none_eq_replicate]

/-- Claim C10: on the global sheet the unlocked cells are exactly column B
rows 1 through the number of global properties plus one, so the header
cell B1 is editable together with one rating cell per global property,
and no column A cell is unlocked; row 1 is the Global, Rating header. -/
theorem C10_global_unlocked_cells (wb : Workbook) (cfg : IaConfiguration) (c : Char) (r : Nat) :
    (CellRef.mk c r ∈ ((_build_global_sheet_ wb cfg).2).unlocked ↔
      (c = 'B' ∧ 1 ≤ r ∧ r ≤ cfg.global_properties.length + 1)) ∧
    ((_build_global_sheet_ wb cfg).2).rows.headD [] =
      [some (XLValue.strVal "Global"), some (XLValue.strVal "Rating")] := by
  constructor
  · simp only [_build_global_sheet_, List.mem_map, List.mem_range, List.length_cons,
      List.length_map]
    constructor
    · rintro ⟨k, hk, hc⟩
      have hcc : c = 'B' := by cases hc; rfl
      have hrr : r = k + 1 := by cases hc; rfl
      exact ⟨hcc, by omega, by omega⟩
    · rintro ⟨hc, h1, h2⟩
      refine ⟨r - 1, by omega, ?_⟩
      rw [hc]
      congr 1
      omega
  · rfl

/-- Claim C2 (failing evaluation): with one coding property and one
utterance the only unlocked cell is D1, which lies in the header row
(row 1 of the two rows), while D2, the coding cell of the single data
row, stays locked. -/
theorem C2_unlock_rows_shifted :
    ((_build_interview_sheet_ freshWorkbook exCfgOneCoding exInterview1).2).unlocked =
      [CellRef.mk 'D' 1] ∧
    ((_build_interview_sheet_ freshWorkbook exCfgOneCoding exInterview1).2).rows.length = 2 ∧
    ((_build_interview_sheet_ freshWorkbook exCfgOneCoding exInterview1).2).rows.headD [] =
      [some (XLValue.strVal "Line"), some (XLValue.strVal "Utt"), some (XLValue.strVal "Role"),
       some (XLValue.strVal "Intensity"), some (XLValue.strVal "Text")] := by
  decide

/-- Claim C3 (failing evaluation): with twenty-four coding properties the
conversion completes without any error and the twenty-fourth validated
column identifier is the character after Z, an invalid column address,
assigned silently. -/
theorem C3_silent_invalid_column :
    (ia2xl exCfg24 exInterview0).toOption.map
        (fun wb => (colTargets (wb.sheets.getD 0 emptySheet)).getD 23 'A') =
      some '[' := by
  decide

/-- Claim C1 (counterexample): on a configuration holding the same
property twice the conversion does not complete with a workbook; it
raises the attribute error produced by wiring validation against the
absent sheet. -/
theorem C1_counterexample :
    ia2xl exCfgDup exInterview1 =
      Except.error (PyError.attributeError "NoneType object has no attribute title") := by
  decide

/-- On a name collision the builder leaves the workbook unchanged and
returns no sheet. -/
theorem append_sheet_collision (wb : Workbook) (p : Property) (pwd : Option String)
    (h : sheetNameOf p ∈ wb.sheetnames) :
    _append_validation_sheet_ wb p pwd = Except.ok (none, wb) := by
  simp only [_append_validation_sheet_]
  rw [if_neg (not_not_intro h)]

/-- Claim C1 (amended): when the computed reference-sheet name already
exists, the builder returns no new sheet and leaves the workbook
unchanged, but the orchestrator does not skip validation wiring: the
wiring step, handed the absent sheet, raises an attribute error, so the
conversion aborts instead of completing. -/
theorem C1_collision_aborts (wb : Workbook) (p : Property) (ds : Sheet) (idx : Loc)
    (h : sheetNameOf p ∈ wb.sheetnames) :
    _append_validation_sheet_ wb p none = Except.ok (none, wb) ∧
    _set_validation_ ds idx none =
      Except.error (PyError.attributeError "NoneType object has no attribute title") :=
  ⟨append_sheet_collision wb p none h, rfl⟩

/-- A workbook already holding a sheet with the Intensity reference name. -/
def exWbColl : Workbook := { sheets := [{ emptySheet with title := "Intensity_P1" }] }

/-- Witness for the amended claim C1 at a concrete collision. -/
theorem C1_collision_aborts_witness :
    _append_validation_sheet_ exWbColl exIntensity none = Except.ok (none, exWbColl) ∧
    _set_validation_ emptySheet (Loc.rowIdx 2) none =
      Except.error (PyError.attributeError "NoneType object has no attribute title") :=
  C1_collision_aborts exWbColl exIntensity emptySheet (Loc.rowIdx 2) (by decide)

/-- When every declared-numeric value parses, the row-appending loop
succeeds and writes exactly the coerced row of each value, in iteration
order. -/
theorem appendValueRows_ok (p : Property) (vs : List PropertyValue)
    (hnum : ∀ pv ∈ vs, p.data_type = "numeric" → p.decimal_digits = 0 →
      (pyInt pv.value).isSome) :
    appendValueRows (selectDataType p) vs = Except.ok (vs.map (refRowOf p)) := by
  induction vs with
  | nil => rfl
  | cons pv rest ih =>
    have hrest := ih (fun q hq hn hd => hnum q (List.mem_cons_of_mem _ hq) hn hd)
    have hhead : selectDataType p pv.value = Except.ok (coercedValue p pv.value) := by
      by_cases h1 : p.data_type = "numeric" ∧ p.decimal_digits = 0
      · obtain ⟨n, hn⟩ := Option.isSome_iff_exists.mp
          (hnum pv (List.mem_cons_self _ _) h1.1 h1.2)
        simp [selectDataType, coercedValue, h1, hn]
      · by_cases h2 : p.data_type = "numeric"
        · have h3 : ¬p.decimal_digits = 0 := fun hd => h1 ⟨h2, hd⟩
          simp [selectDataType, coercedValue, h2, h3]
        · simp [selectDataType, coercedValue, h1, h2]
    simp [appendValueRows, hhead, hrest, refRowOf]

/-- When the computed name is fresh and every declared-numeric value
parses, the builder returns exactly the reference sheet of the property
appended at the end of the workbook. -/
theorem append_sheet_ok (wb : Workbook) (p : Property)
    (hfresh : sheetNameOf p ∉ wb.sheetnames)
    (hnum : ∀ pv ∈ p.values, p.data_type = "numeric" → p.decimal_digits = 0 →
      (pyInt pv.value).isSome) :
    _append_validation_sheet_ wb p none =
      Except.ok (some (refSheetOf p), { wb with sheets := wb.sheets ++ [refSheetOf p] }) := by
  simp only [_append_validation_sheet_]
  rw [if_pos hfresh, appendValueRows_ok p p.values hnum]
  simp [refSheetOf, Option.getD]

/-- Claim C4: for a property whose computed name is not yet taken (and
whose declared-numeric values parse), the builder creates the hidden,
password-protected sheet named display_name underscore property_id whose
rows are the four-field header (value, description, value id, property
id) followed by one row per PropertyValue in iteration order, each value
coerced to integer if the property is numeric with zero decimal digits,
to float if numeric otherwise, and left as text otherwise. -/
theorem C4_reference_sheet_contents (wb : Workbook) (p : Property)
    (hfresh : sheetNameOf p ∉ wb.sheetnames)
    (hnum : ∀ pv ∈ p.values, p.data_type = "numeric" → p.decimal_digits = 0 →
      (pyInt pv.value).isSome) :
    _append_validation_sheet_ wb p none =
      Except.ok (some (refSheetOf p), { wb with sheets := wb.sheets ++ [refSheetOf p] }) :=
  append_sheet_ok wb p hfresh hnum

/-- Witness for claim C4 at the Intensity property on a fresh workbook. -/
theorem C4_reference_sheet_contents_witness :
    _append_validation_sheet_ freshWorkbook exIntensity none =
      Except.ok (some (refSheetOf exIntensity),
        { freshWorkbook with sheets := freshWorkbook.sheets ++ [refSheetOf exIntensity] }) :=
  C4_reference_sheet_contents freshWorkbook exIntensity (by decide) (by decide)

/-- Claim C8: requesting a reference sheet twice for the same property
leaves exactly one sheet with the computed name in the workbook, and the
second request returns no sheet and leaves the workbook unchanged. -/
theorem C8_reference_sheet_idempotent (wb : Workbook) (p : Property) (s : Sheet)
    (wb1 : Workbook)
    (h1 : _append_validation_sheet_ wb p none = Except.ok (some s, wb1)) :
    wb1.sheetnames.count (sheetNameOf p) = 1 ∧
    _append_validation_sheet_ wb1 p none = Except.ok (none, wb1) := by
  simp only [_append_validation_sheet_] at h1
  split at h1
  · rename_i hfresh
    split at h1
    · simp at h1
    · simp only [Except.ok.injEq, Prod.mk.injEq, Option.some.injEq] at h1
      obtain ⟨hs, hwb⟩ := h1
      have hnames : wb1.sheetnames = wb.sheetnames ++ [sheetNameOf p] := by
        rw [← hwb]
        simp [Workbook.sheetnames]
      constructor
      · rw [hnames, List.count_append]
        rw [List.count_eq_zero.mpr hfresh]
        simp
      · simp only [_append_validation_sheet_]
        rw [if_neg (not_not_intro (by
          rw [hnames]
          exact List.mem_append_right _ (by simp)))]
  · simp at h1

/-- Witness for claim C8 at the Intensity property on a fresh workbook. -/
theorem C8_reference_sheet_idempotent_witness :
    (Workbook.mk (freshWorkbook.sheets ++ [refSheetOf exIntensity])).sheetnames.count
        (sheetNameOf exIntensity) = 1 ∧
    _append_validation_sheet_ (Workbook.mk (freshWorkbook.sheets ++ [refSheetOf exIntensity]))
        exIntensity none =
      Except.ok (none, Workbook.mk (freshWorkbook.sheets ++ [refSheetOf exIntensity])) :=
  C8_reference_sheet_idempotent freshWorkbook exIntensity (refSheetOf exIntensity)
    (Workbook.mk (freshWorkbook.sheets ++ [refSheetOf exIntensity])) (by decide)

/-- Claim C9: a property with zero values still yields a reference sheet
holding only the header row (last populated row 1), and the wiring step
still installs a rule whose reference range runs from row 2 through
row 1, with no special case for the empty property. -/
theorem C9_empty_property_sheet (wb : Workbook) (p : Property) (ds : Sheet) (idx : Loc)
    (hvals : p.values = [])
    (hfresh : sheetNameOf p ∉ wb.sheetnames) :
    _append_validation_sheet_ wb p none =
      Except.ok (some (refSheetOf p), { wb with sheets := wb.sheets ++ [refSheetOf p] }) ∧
    (refSheetOf p).rows = [headerRow] ∧
    (refSheetOf p).max_row = 1 ∧
    _set_validation_ ds idx (some (refSheetOf p)) =
      Except.ok { ds with validations := ds.validations ++
        [{ vtype := "list", refSheet := sheetNameOf p, refCol := 'A', refFirstRow := 2,
           refLastRow := 1, allow_blank := true,
           target := match idx with
             | Loc.rowIdx r => TargetRange.cell 'B' r
             | Loc.colIdx c => TargetRange.colRange c 2 ds.max_row }] } := by
  refine ⟨append_sheet_ok wb p hfresh (by rw [hvals]; intro pv hpv; simp at hpv), ?_, ?_, ?_⟩
  · simp [refSheetOf, hvals]
  · simp [refSheetOf, hvals, Sheet.max_row]
  · have hmax : (refSheetOf p).max_row = 1 := by simp [refSheetOf, hvals, Sheet.max_row]
    have htitle : (refSheetOf p).title = sheetNameOf p := rfl
    cases idx <;> simp [_set_validation_, hmax, htitle]

/-- Witness for claim C9 at a valueless property on a fresh workbook. -/
theorem C9_empty_property_sheet_witness :
    _append_validation_sheet_ freshWorkbook exEmptyProp none =
      Except.ok (some (refSheetOf exEmptyProp),
        { freshWorkbook with sheets := freshWorkbook.sheets ++ [refSheetOf exEmptyProp] }) ∧
    (refSheetOf exEmptyProp).rows = [headerRow] ∧
    (refSheetOf exEmptyProp).max_row = 1 ∧
    _set_validation_ emptySheet (Loc.colIdx 'D') (some (refSheetOf exEmptyProp)) =
      Except.ok { emptySheet with validations := emptySheet.validations ++
        [{ vtype := "list", refSheet := sheetNameOf exEmptyProp, refCol := 'A',
           refFirstRow := 2, refLastRow := 1, allow_blank := true,
           target := TargetRange.colRange 'D' 2 emptySheet.max_row }] } :=
  C9_empty_property_sheet freshWorkbook exEmptyProp emptySheet (Loc.colIdx 'D') rfl (by decide)

/-! Machinery for the orchestration-loop invariant: how each step moves the
validation targets of the two data sheets. -/

theorem length_updateSheetAt (l : List Sheet) (n : Nat) (s : Sheet) :
    (updateSheetAt l n s).length = l.length := by
  induction l generalizing n with
  | nil => rfl
  | cons a t ih =>
    cases n with
    | zero => rfl
    | succ m => simp [updateSheetAt, ih]

theorem getD_updateSheetAt_ne (l : List Sheet) (n m : Nat) (s d : Sheet) (h : m ≠ n) :
    (updateSheetAt l n s).getD m d = l.getD m d := by
  induction l generalizing n m with
  | nil => rfl
  | cons a t ih =>
    cases n with
    | zero =>
      cases m with
      | zero => exact absurd rfl h
      | succ k => simp [updateSheetAt]
    | succ j =>
      cases m with
      | zero => simp [updateSheetAt]
      | succ k =>
        simp only [updateSheetAt, List.getD_cons_succ]
        exact ih j k (fun hh => h (by rw [hh]))

theorem getD_updateSheetAt_eq (l : List Sheet) (n : Nat) (s d : Sheet) (h : n < l.length) :
    (updateSheetAt l n s).getD n d = s := by
  induction l generalizing n with
  | nil => simp at h
  | cons a t ih =>
    cases n with
    | zero => rfl
    | succ m =>
      simp only [updateSheetAt, List.getD_cons_succ]
      exact ih m (by simpa using h)

/-- The builder either leaves the sheet list unchanged (collision) or
appends one sheet at the end. -/
theorem append_sheet_sheets (wb : Workbook) (p : Property) (pwd : Option String)
    (o : Option Sheet) (wb1 : Workbook)
    (h : _append_validation_sheet_ wb p pwd = Except.ok (o, wb1)) :
    wb1.sheets = wb.sheets ∨ ∃ s : Sheet, wb1.sheets = wb.sheets ++ [s] := by
  simp only [_append_validation_sheet_] at h
  split at h
  · split at h
    · simp at h
    · simp only [Except.ok.injEq, Prod.mk.injEq] at h
      exact Or.inr ⟨_, by rw [← h.2]⟩
  · simp only [Except.ok.injEq, Prod.mk.injEq] at h
    exact Or.inl (by rw [← h.2])

theorem append_sheet_len (wb : Workbook) (p : Property) (pwd : Option String)
    (o : Option Sheet) (wb1 : Workbook)
    (h : _append_validation_sheet_ wb p pwd = Except.ok (o, wb1)) :
    wb.sheets.length ≤ wb1.sheets.length := by
  rcases append_sheet_sheets wb p pwd o wb1 h with he | ⟨s, he⟩ <;> simp [he]

theorem append_sheet_getD (wb : Workbook) (p : Property) (pwd : Option String)
    (o : Option Sheet) (wb1 : Workbook)
    (h : _append_validation_sheet_ wb p pwd = Except.ok (o, wb1))
    (i : Nat) (hi : i < wb.sheets.length) :
    wb1.sheets.getD i emptySheet = wb.sheets.getD i emptySheet := by
  rcases append_sheet_sheets wb p pwd o wb1 h with he | ⟨s, he⟩
  · rw [he]
  · rw [he, List.getD_append _ _ _ _ hi]

theorem colTargets_append_col (s : Sheet) (dv : DataValidation) (c : Char) (a b : Nat)
    (ht : dv.target = TargetRange.colRange c a b) :
    colTargets { s with validations := s.validations ++ [dv] } = colTargets s ++ [c] := by
  simp [colTargets, List.filterMap_append, ht]

theorem colTargets_append_cell (s : Sheet) (dv : DataValidation) (c : Char) (r : Nat)
    (ht : dv.target = TargetRange.cell c r) :
    colTargets { s with validations := s.validations ++ [dv] } = colTargets s := by
  simp [colTargets, List.filterMap_append, ht]

theorem cellRowTargets_append_cell (s : Sheet) (dv : DataValidation) (c : Char) (r : Nat)
    (ht : dv.target = TargetRange.cell c r) :
    cellRowTargets { s with validations := s.validations ++ [dv] } =
      cellRowTargets s ++ [r] := by
  simp [cellRowTargets, List.filterMap_append, ht]

theorem cellRowTargets_append_col (s : Sheet) (dv : DataValidation) (c : Char) (a b : Nat)
    (ht : dv.target = TargetRange.colRange c a b) :
    cellRowTargets { s with validations := s.validations ++ [dv] } = cellRowTargets s := by
  simp [cellRowTargets, List.filterMap_append, ht]

/-- The coding properties seen by the loop (the isinstance test false). -/
def codingCount (props : List Property) : Nat :=
  (props.filter (fun p => !isGlobalProperty p)).length

/-- The global properties seen by the loop (the isinstance test true). -/
def globalCount (props : List Property) : Nat :=
  (props.filter (fun p => isGlobalProperty p)).length

theorem codingCount_cons_global (cp : Property) (rest : List Property)
    (hg : isGlobalProperty cp = true) :
    codingCount (cp :: rest) = codingCount rest := by
  simp [codingCount, List.filter_cons, hg]

theorem codingCount_cons_coding (cp : Property) (rest : List Property)
    (hg : isGlobalProperty cp = false) :
    codingCount (cp :: rest) = codingCount rest + 1 := by
  simp [codingCount, List.filter_cons, hg]

theorem globalCount_cons_global (cp : Property) (rest : List Property)
    (hg : isGlobalProperty cp = true) :
    globalCount (cp :: rest) = globalCount rest + 1 := by
  simp [globalCount, List.filter_cons, hg]

theorem globalCount_cons_coding (cp : Property) (rest : List Property)
    (hg : isGlobalProperty cp = false) :
    globalCount (cp :: rest) = globalCount rest := by
  simp [globalCount, List.filter_cons, hg]

theorem range_map_shift_nat (c m : Nat) :
    (List.range (m + 1)).map (fun k => c + k) =
      c :: (List.range m).map (fun k => c + 1 + k) := by
  rw [List.range_succ_eq_map, List.map_cons, List.map_map]
  have hf : ((fun k => c + k) ∘ Nat.succ) = fun k : Nat => c + 1 + k := by
    funext k
    simp [Function.comp, Nat.succ_eq_add_one]
    omega
  rw [hf]
  simp

theorem range_map_shift_char (c m : Nat) :
    (List.range (m + 1)).map (fun k => Char.ofNat (c + k)) =
      Char.ofNat c :: (List.range m).map (fun k => Char.ofNat (c + 1 + k)) := by
  rw [List.range_succ_eq_map, List.map_cons, List.map_map]
  have hf : ((fun k => Char.ofNat (c + k)) ∘ Nat.succ) =
      fun k : Nat => Char.ofNat (c + 1 + k) := by
    funext k
    simp only [Function.comp, Nat.succ_eq_add_one]
    congr 1
    omega
  rw [hf]
  simp

/-- The loop invariant: a successful run over props appends to the
interview sheet (index 0) one column-mode target per coding property, at
the consecutive columns after the running column counter, and to the
global sheet (index 1) one single-cell target per global property, at the
consecutive rows after the running row counter. -/
theorem ia2xlLoop_targets (props : List Property) :
    ∀ (wb : Workbook) (pc gr : Nat) (wb' : Workbook),
      ia2xlLoop props wb pc gr = Except.ok wb' →
      2 ≤ wb.sheets.length →
      2 ≤ wb'.sheets.length ∧
      colTargets (wb'.sheets.getD 0 emptySheet) =
        colTargets (wb.sheets.getD 0 emptySheet) ++
          (List.range (codingCount props)).map (fun k => Char.ofNat (pc + 1 + k)) ∧
      cellRowTargets (wb'.sheets.getD 1 emptySheet) =
        cellRowTargets (wb.sheets.getD 1 emptySheet) ++
          (List.range (globalCount props)).map (fun k => gr + 1 + k) := by
  induction props with
  | nil =>
    intro wb pc gr wb' h hlen
    simp only [ia2xlLoop, Except.ok.injEq] at h
    subst h
    simp [codingCount, globalCount]
    exact hlen
  | cons cp rest ih =>
    intro wb pc gr wb' h hlen
    cases happ : _append_validation_sheet_ wb cp none with
    | error e => simp [ia2xlLoop, happ] at h
    | ok pr =>
      obtain ⟨osheet, wb1⟩ := pr
      have hlen1 : 2 ≤ wb1.sheets.length :=
        le_trans hlen (append_sheet_len wb cp none osheet wb1 happ)
      have hget0 : wb1.sheets.getD 0 emptySheet = wb.sheets.getD 0 emptySheet :=
        append_sheet_getD wb cp none osheet wb1 happ 0 (by omega)
      have hget1 : wb1.sheets.getD 1 emptySheet = wb.sheets.getD 1 emptySheet :=
        append_sheet_getD wb cp none osheet wb1 happ 1 (by omega)
      simp only [ia2xlLoop, happ] at h
      cases osheet with
      | none =>
        cases hg : isGlobalProperty cp <;> simp [hg, _set_validation_] at h
      | some vs =>
        cases hg : isGlobalProperty cp with
        | true =>
          simp only [hg, if_true, _set_validation_] at h
          obtain ⟨hlen', hcol, hrow⟩ := ih _ pc (gr + 1) wb' h
            (by simpa [length_updateSheetAt] using hlen1)
          refine ⟨hlen', ?_, ?_⟩
          · dsimp only at hcol
            rw [getD_updateSheetAt_ne wb1.sheets 1 0 _ emptySheet (by omega), hget0] at hcol
            rw [codingCount_cons_global cp rest hg]
            exact hcol
          · dsimp only at hrow
            rw [getD_updateSheetAt_eq wb1.sheets 1 _ emptySheet (by omega)] at hrow
            rw [cellRowTargets_append_cell _ _ 'B' (gr + 1) rfl, hget1] at hrow
            rw [globalCount_cons_global cp rest hg, range_map_shift_nat]
            rw [hrow, List.append_assoc]
            rfl
        | false =>
          simp only [hg, Bool.false_eq_true, if_false, _set_validation_] at h
          obtain ⟨hlen', hcol, hrow⟩ := ih _ (pc + 1) gr wb' h
            (by simpa [length_updateSheetAt] using hlen1)
          refine ⟨hlen', ?_, ?_⟩
          · dsimp only at hcol
            rw [getD_updateSheetAt_eq wb1.sheets 0 _ emptySheet (by omega)] at hcol
            rw [colTargets_append_col _ _ (Char.ofNat (pc + 1)) 2 _ rfl, hget0] at hcol
            rw [codingCount_cons_coding cp rest hg, range_map_shift_char]
            rw [hcol, List.append_assoc]
            rfl
          · dsimp only at hrow
            rw [getD_updateSheetAt_ne wb1.sheets 0 1 _ emptySheet (by omega), hget1] at hrow
            rw [globalCount_cons_coding cp rest hg]
            exact hrow

/-- Claim C6: on a valid configuration (its two property lists correctly
tagged, and at most the twenty-three coding properties expressible in the
single-letter column range), a completed conversion carries exactly one
validated column per coding property on the interview sheet, all columns
pairwise distinct, and exactly one validated row per global property on
the global sheet, all rows pairwise distinct. -/
theorem C6_unique_locations (cfg : IaConfiguration) (itv : Interview) (wb : Workbook)
    (hck : ∀ p ∈ cfg.coding_properties, p.kind = PropertyKind.coding)
    (hgk : ∀ p ∈ cfg.global_properties, p.kind = PropertyKind.global)
    (hn : cfg.coding_properties.length ≤ 23)
    (hok : ia2xl cfg itv = Except.ok wb) :
    (colTargets (wb.sheets.getD 0 emptySheet)).length = cfg.coding_properties.length ∧
    (colTargets (wb.sheets.getD 0 emptySheet)).Nodup ∧
    (cellRowTargets (wb.sheets.getD 1 emptySheet)).length = cfg.global_properties.length ∧
    (cellRowTargets (wb.sheets.getD 1 emptySheet)).Nodup := by
  simp only [ia2xl] at hok
  obtain ⟨hlen', hcol, hrow⟩ :=
    ia2xlLoop_targets (cfg.coding_properties ++ cfg.global_properties) _ 67 1 wb hok
      (by simp [_build_interview_sheet_, _build_global_sheet_, updateSheetAt, insertSheetAt])
  simp only [_build_interview_sheet_, _build_global_sheet_, updateSheetAt, insertSheetAt,
    colTargets, cellRowTargets, emptySheet, List.getD_cons_zero, List.getD_cons_succ,
    List.filterMap_nil, List.headD_cons] at hcol hrow
  have hcc : codingCount (cfg.coding_properties ++ cfg.global_properties) =
      cfg.coding_properties.length := by
    unfold codingCount
    rw [List.filter_append]
    have h1 : List.filter (fun p => !isGlobalProperty p) cfg.coding_properties =
        cfg.coding_properties :=
      List.filter_eq_self.mpr (fun a ha => by simp [isGlobalProperty, hck a ha])
    have h2 : List.filter (fun p => !isGlobalProperty p) cfg.global_properties = [] :=
      List.filter_eq_nil_iff.mpr (fun a ha => by simp [isGlobalProperty, hgk a ha])
    rw [h1, h2]
    simp
  have hgc : globalCount (cfg.coding_properties ++ cfg.global_properties) =
      cfg.global_properties.length := by
    unfold globalCount
    rw [List.filter_append]
    have h1 : List.filter (fun p => isGlobalProperty p) cfg.coding_properties = [] :=
      List.filter_eq_nil_iff.mpr (fun a ha => by simp [isGlobalProperty, hck a ha])
    have h2 : List.filter (fun p => isGlobalProperty p) cfg.global_properties =
        cfg.global_properties :=
      List.filter_eq_self.mpr (fun a ha => by simp [isGlobalProperty, hgk a ha])
    rw [h1, h2]
    simp
  rw [hcc] at hcol
  rw [hgc] at hrow
  simp only [List.nil_append] at hcol hrow
  refine ⟨?_, ?_, ?_, ?_⟩
  · simp only [colTargets, emptySheet]
    rw [hcol]
    simp
  · simp only [colTargets, emptySheet]
    rw [hcol]
    have hr : List.range cfg.coding_properties.length =
        List.take cfg.coding_properties.length (List.range 23) := by
      rw [List.take_range]
      congr 1
      omega
    rw [hr, List.map_take]
    exact List.Nodup.sublist (List.take_sublist _ _)
      (by decide :
        ((List.range 23).map (fun k => Char.ofNat (67 + 1 + k))).Nodup)
  · simp only [cellRowTargets, emptySheet]
    rw [hrow]
    simp
  · simp only [cellRowTargets, emptySheet]
    rw [hrow]
    refine List.Nodup.map ?_ (List.nodup_range _)
    intro a b hab
    simp only at hab
    omega

/-- The workbook computed by ia2xl on the small two-property scenario. -/
def exRunWb : Workbook := (ia2xl exCfg exInterview2).toOption.getD { sheets := [] }

/-- Witness for claim C6 on the small two-property scenario. -/
theorem C6_unique_locations_witness :
    (colTargets (exRunWb.sheets.getD 0 emptySheet)).length = exCfg.coding_properties.length ∧
    (colTargets (exRunWb.sheets.getD 0 emptySheet)).Nodup ∧
    (cellRowTargets (exRunWb.sheets.getD 1 emptySheet)).length =
      exCfg.global_properties.length ∧
    (cellRowTargets (exRunWb.sheets.getD 1 emptySheet)).Nodup :=
  C6_unique_locations exCfg exInterview2 exRunWb (by decide) (by decide) (by decide)
    (by decide)

end Ia2xl
